import Mathlib

/-!
Verification of the LibreSpeed Home Assistant integration (gtxaspec/librespeed-ha).

This file gives a shallow embedding, in Lean, of the parts of the repository
relevant to the verified claims:

* `custom_components/librespeed/librespeed_client.py`
  (server directory, protocol detection, latency/ping statistics,
  throughput speed computation, backend flavor detection, stream launching),
* `custom_components/librespeed/coordinator.py`
  (circuit breaker, global lock handling, retry loop with exponential
  backoff, lifetime counters),
* `custom_components/librespeed/const.py` (numeric constants).

Python floating point arithmetic is modelled with exact rationals (`ℚ`);
Python's `round(x, 2)` is modelled as round-half-to-even at two decimal
places; network I/O and the event loop are modelled by passing the outcome
of each network interaction (per-attempt outcome, probe result, lock
acquisition result) as an explicit input to the embedded function.
-/

/- ### Constants from `const.py` -/

def SPEED_TEST_DURATION : ℕ := 15
def DEFAULT_CHUNKS : ℕ := 100
def PING_COUNT : ℕ := 10
def PING_INTERVAL : ℚ := 1/10
def MAX_CONCURRENT_DOWNLOADS : ℕ := 6
def MAX_CONCURRENT_UPLOADS : ℕ := 3
def CIRCUIT_BREAKER_WARNING_THRESHOLD : ℕ := 5
def CIRCUIT_BREAKER_OPEN_THRESHOLD : ℕ := 10
def SERVER_LIST_TIMEOUT : ℕ := 10
def PING_TIMEOUT : ℕ := 2
def GLOBAL_TEST_LOCK_TIMEOUT : ℕ := 300
def MAX_RETRIES : ℕ := 3
def RETRY_DELAY_BASE : ℚ := 5
def RUST_BACKEND_THRESHOLD : ℕ := 5000000
def MAX_LIFETIME_GB : ℚ := 1000000
def DOWNLOAD_CHUNK_PARAM : ℕ := 20
def PHP_BACKEND_THRESHOLD : ℕ := 2
def STREAM_START_DELAY : ℚ := 1/5
def HTTP_OK : ℕ := 200

/- ### Ping / jitter statistics (`run_speed_test`, librespeed_client.py lines 376-393) -/

/-- Round-half-to-even of a rational to an integer, modelling Python `round`. -/
def roundHalfEven (x : ℚ) : ℤ :=
  if x - ⌊x⌋ < 1/2 then ⌊x⌋
  else if (1 : ℚ)/2 < x - ⌊x⌋ then ⌊x⌋ + 1
  else if ⌊x⌋ % 2 = 0 then ⌊x⌋ else ⌊x⌋ + 1

/-- Python `round(x, 2)`: round-half-to-even at two decimal places. -/
def round2 (x : ℚ) : ℚ := (roundHalfEven (x * 100) : ℚ) / 100

/-- Python `min` over a list of numbers (`min(ping_results)`); 0 on the
empty list, which the source never reaches because it is guarded by
`if ping_results:`. -/
def listMin : List ℚ → ℚ
  | [] => 0
  | h :: t => t.foldl min h

/-- Sum of `abs(ping_results[i] - ping_results[i-1])` for `i in range(1, len)`. -/
def absDiffSum : List ℚ → ℚ
  | [] => 0
  | [_] => 0
  | a :: b :: t => |a - b| + absDiffSum (b :: t)

/-- The ping/jitter computation of `run_speed_test`: the sampling loop keeps
only finite latencies (`latency != float('inf')`), here the `some` entries of
the sample list; then `ping = round(min(ping_results), 2)` and
`jitter = round(mean of consecutive absolute differences, 2)` when more than
one finite sample remains, else `0`; both stay `0` when no finite sample
exists. -/
def pingStats (samples : List (Option ℚ)) : ℚ × ℚ :=
  let pr := samples.filterMap id
  if pr.isEmpty then (0, 0)
  else
    (round2 (listMin pr),
     if 1 < pr.length then
       round2 (absDiffSum pr / ((pr.length - 1 : ℕ) : ℚ))
     else 0)

/- ### Throughput speed (`_test_download` lines 523-534, `_test_upload` lines 655-666) -/

/-- Final speed computation shared verbatim by the download and upload phases:
`speed = (total_bytes * 8) / elapsed / 1_000_000` when
`total_bytes > 0 and elapsed > 0`, else `speed = 0`. -/
def computeSpeed (totalBytes : ℕ) (elapsed : ℚ) : ℚ :=
  if 0 < totalBytes ∧ 0 < elapsed then ((totalBytes : ℚ) * 8) / elapsed / 1000000
  else 0

/- ### Worker stream launching (`_test_download` lines 442-507, `_test_upload` lines 598-639) -/

/-- Number of download worker tasks started:
`concurrent_requests = min(3, MAX_CONCURRENT_DOWNLOADS)`. -/
def downloadConcurrentRequests : ℕ := min 3 MAX_CONCURRENT_DOWNLOADS

/-- Number of upload worker tasks started:
`concurrent_requests = min(3, MAX_CONCURRENT_UPLOADS)`. -/
def uploadConcurrentRequests : ℕ := min 3 MAX_CONCURRENT_UPLOADS

/-- The staggered start delays of the stream-launch loop: the loop
`for i in range(n)` sleeps `STREAM_START_DELAY` after creating stream `i`
whenever `i < n - 1`. -/
def startSleeps (n : ℕ) : List ℚ :=
  (List.range n).filterMap fun i =>
    if i < n - 1 then some STREAM_START_DELAY else none

/- ### Backend flavor detection inside the download loop (`do_download`, lines 461-488) -/

/-- Backend flavor as detected by the client (`self._detected_backend_type`). -/
inductive BackendType
  | rust
  | php
deriving DecidableEq

/-- Detection state carried by the download phase: the optional
`_detected_backend_type` attribute and the `downloads_completed` counter. -/
structure DetectState where
  detected : Option BackendType
  downloadsCompleted : ℕ
deriving DecidableEq

/-- State at the start of the download phase: no `_detected_backend_type`
attribute, no completed downloads. -/
def initDetectState : DetectState := ⟨none, 0⟩

/-- The `ckSize` request parameter chosen before each chunk request:
`DOWNLOAD_CHUNK_PARAM` while the backend type is unknown or `rust`;
`chunks = DEFAULT_CHUNKS` once the `php` backend has been detected. -/
def chunkParam (s : DetectState) : ℕ :=
  match s.detected with
  | none => DOWNLOAD_CHUNK_PARAM
  | some .rust => DOWNLOAD_CHUNK_PARAM
  | some .php => DEFAULT_CHUNKS

/-- Effect of one chunk completion on the detection state (`do_download`):
when `bytes_received > 0` the `downloads_completed` counter is incremented
and then, if the backend type is still unset, a response larger than
`RUST_BACKEND_THRESHOLD` sets it to `rust`, otherwise a counter exceeding
`PHP_BACKEND_THRESHOLD` sets it to `php`. -/
def detectStep (s : DetectState) (bytesReceived : ℕ) : DetectState :=
  if 0 < bytesReceived then
    let s1 : DetectState := ⟨s.detected, s.downloadsCompleted + 1⟩
    match s1.detected with
    | some _ => s1
    | none =>
      if RUST_BACKEND_THRESHOLD < bytesReceived then
        ⟨some .rust, s1.downloadsCompleted⟩
      else if PHP_BACKEND_THRESHOLD < s1.downloadsCompleted then
        ⟨some .php, s1.downloadsCompleted⟩
      else s1
  else s

/-- Detection state after a sequence of chunk completions (byte counts),
starting from the beginning of the download phase. -/
def detectRun (l : List ℕ) : DetectState := l.foldl detectStep initDetectState

/- ### Strings and URL normalization (librespeed_client.py) -/

/-- Boolean test that `p` is an initial segment of `s` (on character lists). -/
def leadsWith : List Char → List Char → Bool
  | [], _ => true
  | _ :: _, [] => false
  | a :: p, b :: s => if a = b then leadsWith p s else false

/-- Python `s.startswith(p)`. -/
def strStartsWith (s p : String) : Bool := leadsWith p.data s.data

/-- Python `s.endswith(p)`. -/
def strEndsWith (s p : String) : Bool := leadsWith p.data.reverse s.data.reverse

/-- Python `s.rstrip('/')`. -/
def rstripSlash (s : String) : String :=
  ⟨(s.data.reverse.dropWhile fun c => c = '/').reverse⟩

/-- URL scheme normalization used by `get_servers` (and `_test_latency`,
`_test_download`, `_test_upload`): `"https:" + url` when the URL is
protocol-relative (`//...`), `"https://" + url` when it carries no
`http://`/`https://` scheme, unchanged otherwise. -/
def ensureScheme (u : String) : String :=
  if strStartsWith u "//" then "https:" ++ u
  else if !(strStartsWith u "http://" || strStartsWith u "https://") then "https://" ++ u
  else u

/-- Scan for the first `://` separator and return the characters after it,
or `none` when the string has no such separator. -/
def afterSchemeSep : List Char → Option (List Char)
  | [] => none
  | ':' :: '/' :: '/' :: rest => some rest
  | _ :: rest => afterSchemeSep rest

/-- The path component of a URL, modelling `urllib.parse.urlparse(u).path`
for the URL shapes reaching `_create_custom_server` (an optional
`scheme://netloc` part followed by a path, no query or fragment): everything
from the first `/` after the `://` separator; the whole string when there is
no `://` separator. -/
def urlPath (u : String) : String :=
  match afterSchemeSep u.data with
  | none => u
  | some rest => ⟨rest.dropWhile fun c => c ≠ '/'⟩

/- ### Server directory (`get_servers`, librespeed_client.py lines 83-137) -/

/-- A fully-populated server descriptor as produced by `get_servers` /
`_create_custom_server`. -/
structure Server where
  id : ℤ
  name : String
  server : String
  location : String
  sponsor : String
  dlURL : String
  ulURL : String
  pingURL : String
  getIpURL : String
deriving DecidableEq

/-- The built-in `DEFAULT_SERVERS` list (librespeed_client.py lines 51-63). -/
def DEFAULT_SERVERS : List Server :=
  [⟨1, "LibreSpeed Test Server", "https://librespeed.org/", "Global", "LibreSpeed",
    "backend/garbage.php", "backend/empty.php", "backend/empty.php", "backend/getIP.php"⟩]

/-- A JSON object from the fetched server list, with each field present or
absent (`server.get(key, default)`). -/
structure RawServer where
  id : Option ℤ
  name : Option String
  server : Option String
  location : Option String
  sponsor : Option String
  dlURL : Option String
  ulURL : Option String
  pingURL : Option String
  getIpURL : Option String
deriving DecidableEq

/-- One element of the decoded JSON array: either not a dict (skipped by the
`isinstance(server, dict)` check) or a dict of optional fields. -/
inductive JsonEntry
  | junk
  | obj (e : RawServer)
deriving DecidableEq

/-- The per-entry normalization of `get_servers`: skip non-dicts; default the
id to `idx + 1` and the display fields; strip trailing slashes from the URL
and add a scheme; default missing endpoint suffixes to the legacy
(`backend/*.php`) convention. -/
def parseEntry (idx : ℕ) (j : JsonEntry) : Option Server :=
  match j with
  | .junk => none
  | .obj e =>
    some
      { id := e.id.getD ((idx : ℤ) + 1)
        name := e.name.getD "Unknown Server"
        server := ensureScheme (rstripSlash (e.server.getD ""))
        location := e.location.getD (e.name.getD "Unknown")
        sponsor := e.sponsor.getD "Unknown"
        dlURL := e.dlURL.getD "backend/garbage.php"
        ulURL := e.ulURL.getD "backend/empty.php"
        pingURL := e.pingURL.getD "backend/empty.php"
        getIpURL := e.getIpURL.getD "backend/getIP.php" }

/-- Outcome of the directory fetch: `failure` covers the three caught
exception classes (`aiohttp.ClientError`, `json.JSONDecodeError`,
`asyncio.TimeoutError`); otherwise the HTTP status and decoded body. -/
inductive FetchOutcome
  | failure
  | response (status : ℕ) (body : List JsonEntry)

/-- `get_servers`: on failure or a non-200 status no entry is collected; on a
200 response the entries are normalized and sorted by ascending id (Python
`servers.sort(key=lambda x: x["id"])`, modelled by a stable insertion sort);
an empty collection falls back to `DEFAULT_SERVERS`. -/
def getServers (f : FetchOutcome) : List Server :=
  let servers :=
    match f with
    | .failure => []
    | .response status body =>
      if status = HTTP_OK then
        List.insertionSort (fun a b => a.id ≤ b.id)
          (body.enum.filterMap fun p => parseEntry p.1 p.2)
      else []
  if servers.isEmpty then DEFAULT_SERVERS else servers

/- ### Custom server creation (`_create_custom_server` lines 192-251,
`_detect_backend_type` lines 253-288) -/

/-- Whether the custom URL already contains a backend sub-path:
`bool(parsed.path and parsed.path != '/')` on `urlparse(url.rstrip('/'))`. -/
def hasBackendPath (u : String) : Bool :=
  let p := urlPath (rstripSlash u)
  !(p = "" || p = "/")

/-- The extension-less probe endpoint tried first by `_detect_backend_type`. -/
def rustTestUrl (serverUrl : String) (hbp : Bool) : String :=
  if hbp then rstripSlash serverUrl ++ "/empty"
  else rstripSlash serverUrl ++ "/backend/empty"

/-- The `.php`-suffixed probe endpoint tried second by `_detect_backend_type`. -/
def phpTestUrl (serverUrl : String) (hbp : Bool) : String :=
  if hbp then rstripSlash serverUrl ++ "/empty.php"
  else rstripSlash serverUrl ++ "/backend/empty.php"

/-- The two probe endpoints in the order they are tried. -/
def probeOrder (serverUrl : String) (hbp : Bool) : List String :=
  [rustTestUrl serverUrl hbp, phpTestUrl serverUrl hbp]

/-- `_detect_backend_type` given the outcome of each probe (whether the GET
returned status 200 within `PING_TIMEOUT`): the first successful probe wins;
when neither succeeds the function defaults to `php` instead of raising. -/
def detectBackendType (rustOk phpOk : Bool) : BackendType :=
  if rustOk then .rust else if phpOk then .php else .php

/-- `_create_custom_server`: builds the custom server descriptor, choosing
the four endpoint suffixes from the detected backend type and from whether
the URL already contains a backend sub-path. -/
def createCustomServer (url : String) (rustOk phpOk : Bool) : Server :=
  let base := rstripSlash url
  let hbp := hasBackendPath url
  match detectBackendType rustOk phpOk, hbp with
  | .rust, true =>
    ⟨0, "Custom Server", base, "Custom", "User Defined",
     "garbage", "empty", "empty", "getIP"⟩
  | .rust, false =>
    ⟨0, "Custom Server", base, "Custom", "User Defined",
     "backend/garbage", "backend/empty", "backend/empty", "backend/getIP"⟩
  | .php, true =>
    ⟨0, "Custom Server", base, "Custom", "User Defined",
     "garbage.php", "empty.php", "empty.php", "getIP.php"⟩
  | .php, false =>
    ⟨0, "Custom Server", base, "Custom", "User Defined",
     "backend/garbage.php", "backend/empty.php", "backend/empty.php", "backend/getIP.php"⟩

/- ### Coordinator state machine (coordinator.py) -/

/-- The fields of a parsed test result that the coordinator state machine
reads (`_parse_result` output). -/
structure TestData where
  download : ℚ
  upload : ℚ
  ping : ℚ
  jitter : ℚ
  bytesSent : ℕ
  bytesReceived : ℕ
deriving DecidableEq

/-- Coordinator state: the consecutive-failure counter, the two lifetime
counters (GB), and the last known-good result (`self.data`). -/
structure CoordState where
  consecutiveFailures : ℕ
  lifetimeDownload : ℚ
  lifetimeUpload : ℚ
  data : Option TestData
deriving DecidableEq

/-- A retryable per-attempt error: `asyncio.TimeoutError` or
`aiohttp.ClientError` (carrying its description). -/
inductive RetryErr
  | timeout
  | network (msg : String)
deriving DecidableEq

/-- A non-retryable per-attempt error: the
`SpeedTestError`/`NetworkError`/`CLIError` branch or the
`ValueError`/`TypeError`/`KeyError`/`AttributeError` branch. -/
inductive FatalErr
  | test (msg : String)
  | dataProc (msg : String)
deriving DecidableEq

/-- Outcome of one `client.run_speed_test` call. -/
inductive AttemptOutcome
  | success (r : TestData)
  | retryable (e : RetryErr)
  | fatal (e : FatalErr)

/-- The distinct `UpdateFailed` signals the coordinator can surface, one per
distinct raise site / message in `_async_update_data` and `_run_speed_test`. -/
inductive UpdateErr
  | circuitOpen
  | lockTimeout
  | timedOutRetries
  | networkRetries (msg : String)
  | testError (msg : String)
  | dataProcError (msg : String)
deriving DecidableEq

/-- What `_async_update_data` produces: a result dictionary, an
`UpdateFailed` exception, or the implicit `None` of the unreachable
fall-through after the retry loop. -/
inductive RunResult
  | ok (d : TestData)
  | updateFailed (e : UpdateErr)
  | noneReturn
deriving DecidableEq

/-- Observable effect of one `_async_update_data` call: its result, the
post-state, the sequence of backoff sleeps performed, and how many
`client.run_speed_test` attempts (measurement network I/O) were made. -/
structure RunOut where
  result : RunResult
  state : CoordState
  sleeps : List ℚ
  attemptsUsed : ℕ
deriving DecidableEq

/-- The aggregate failure raised after the retry loop exhausts, dispatching
on the class of `last_error`; `none` models the unreachable case where the
loop never ran (Python would fall through and return `None`). -/
def aggregateErr : Option RetryErr → RunResult
  | some .timeout => .updateFailed .timedOutRetries
  | some (.network m) => .updateFailed (.networkRetries m)
  | none => .noneReturn

/-- The success path of `_run_speed_test`: accumulate bytes into the lifetime
counters (bytes→GB, capped at `MAX_LIFETIME_GB`), reset the
consecutive-failure counter, and record the result. -/
def applySuccess (s : CoordState) (r : TestData) : CoordState :=
  { consecutiveFailures := 0
    lifetimeDownload :=
      min (s.lifetimeDownload + (r.bytesReceived : ℚ) / 1000000000) MAX_LIFETIME_GB
    lifetimeUpload :=
      min (s.lifetimeUpload + (r.bytesSent : ℚ) / 1000000000) MAX_LIFETIME_GB
    data := some r }

/-- The `UpdateFailed` raised immediately on a non-retryable error. -/
def fatalResult : FatalErr → RunResult
  | .test m => .updateFailed (.testError m)
  | .dataProc m => .updateFailed (.dataProcError m)

/-- The retry loop of `_run_speed_test` (`for attempt in range(MAX_RETRIES)`),
driven by the outcome of each attempt: success updates counters and returns;
a non-retryable error aborts at once leaving the failure counter unchanged;
a retryable error sleeps `RETRY_DELAY_BASE * 2 ** attempt` unless it was the
final attempt; exhausting the loop increments the consecutive-failure counter
and raises the aggregate error built from `last_error`. `fuel` is the number
of attempts remaining (`MAX_RETRIES - attempt`). -/
def runLoop (o : ℕ → AttemptOutcome) (s : CoordState) :
    ℕ → ℕ → Option RetryErr → RunOut
  | _attempt, 0, lastErr =>
    { result := aggregateErr lastErr
      state := { s with consecutiveFailures := s.consecutiveFailures + 1 }
      sleeps := []
      attemptsUsed := 0 }
  | attempt, fuel + 1, _lastErr =>
    match o attempt with
    | .success r =>
      { result := .ok r, state := applySuccess s r, sleeps := [], attemptsUsed := 1 }
    | .fatal e =>
      { result := fatalResult e, state := s, sleeps := [], attemptsUsed := 1 }
    | .retryable e =>
      let rest := runLoop o s (attempt + 1) fuel (some e)
      { result := rest.result
        state := rest.state
        sleeps := (if 0 < fuel then [RETRY_DELAY_BASE * 2 ^ attempt] else []) ++ rest.sleeps
        attemptsUsed := rest.attemptsUsed + 1 }

/-- How the global test lock interaction went for this call: the lock was
free, or it was held and this instance acquired it before the 5-minute
timeout, or the wait timed out. -/
inductive LockOutcome
  | free
  | acquiredAfterWait
  | waitTimeout
deriving DecidableEq

/-- `_async_update_data`: circuit breaker check first (at
`CIRCUIT_BREAKER_OPEN_THRESHOLD` consecutive failures, return the last
known-good data if any, else raise the distinct service-unavailable
`UpdateFailed`, with no attempt made); then the global-lock wait (on timeout,
return last known-good data if any, else raise, with no attempt made);
otherwise run the retry loop under the lock. -/
def updateData (s : CoordState) (lock : LockOutcome) (o : ℕ → AttemptOutcome) : RunOut :=
  if CIRCUIT_BREAKER_OPEN_THRESHOLD ≤ s.consecutiveFailures then
    match s.data with
    | some d => { result := .ok d, state := s, sleeps := [], attemptsUsed := 0 }
    | none => { result := .updateFailed .circuitOpen, state := s, sleeps := [], attemptsUsed := 0 }
  else
    match lock with
    | .waitTimeout =>
      match s.data with
      | some d => { result := .ok d, state := s, sleeps := [], attemptsUsed := 0 }
      | none => { result := .updateFailed .lockTimeout, state := s, sleeps := [], attemptsUsed := 0 }
    | _ => runLoop o s 0 MAX_RETRIES none

/-- The circuit-breaker reset performed by a manual trigger
(`async_run_speedtest`) before refreshing: while at or above the open
threshold the counter is set back to `CIRCUIT_BREAKER_OPEN_THRESHOLD - 1`. -/
def manualTriggerPre (s : CoordState) : CoordState :=
  if CIRCUIT_BREAKER_OPEN_THRESHOLD ≤ s.consecutiveFailures then
    { s with consecutiveFailures := CIRCUIT_BREAKER_OPEN_THRESHOLD - 1 }
  else s

/-- The ordering used by the directory sort is total. -/
instance : IsTotal Server fun a b => a.id ≤ b.id :=
  ⟨fun a b => le_total a.id b.id⟩

/-- The ordering used by the directory sort is transitive. -/
instance : IsTrans Server fun a b => a.id ≤ b.id :=
  ⟨fun _ _ _ h1 h2 => le_trans h1 h2⟩

/- ### Theorems -/

/-- Helper: the fold underlying `listMin` produces an element of the list. -/
theorem foldl_min_mem : ∀ (t : List ℚ) (a : ℚ), t.foldl min a ∈ a :: t := by
  intro t
  induction t with
  | nil => intro a; simp [List.foldl]
  | cons b t ih =>
    intro a
    have h := ih (min a b)
    simp only [List.foldl, List.mem_cons]
    rcases List.mem_cons.mp h with h1 | h1
    · rcases le_total a b with hab | hab
      · left; rw [h1, min_eq_left hab]
      · right; left; rw [h1, min_eq_right hab]
    · right; right; exact h1

/-- Helper: the fold underlying `listMin` is a lower bound. -/
theorem foldl_min_le : ∀ (t : List ℚ) (a : ℚ), t.foldl min a ≤ a ∧ ∀ x ∈ t, t.foldl min a ≤ x := by
  intro t
  induction t with
  | nil => intro a; simp [List.foldl]
  | cons b t ih =>
    intro a
    have h := ih (min a b)
    constructor
    · exact le_trans h.1 (min_le_left a b)
    · intro x hx
      rcases List.mem_cons.mp hx with h1 | h1
      · subst h1
        exact le_trans h.1 (min_le_right a x)
      · exact h.2 x h1

/-- Helper: `absDiffSum` equals the sum of absolute differences of adjacent
pairs. -/
theorem absDiffSum_eq_zip :
    ∀ l : List ℚ, absDiffSum l = ((l.zip l.tail).map fun p => |p.1 - p.2|).sum := by
  intro l
  induction l with
  | nil => simp [absDiffSum]
  | cons a t ih =>
    cases t with
    | nil => simp [absDiffSum]
    | cons b t2 =>
      simp only [absDiffSum, List.tail_cons, List.zip_cons_cons, List.map_cons, List.sum_cons]
      rw [ih]
      simp

/-- C1 (amended): over the fixed count of `PING_COUNT = 10` latency samples,
whenever at least one sample is finite the reported ping equals the minimum
of the finite samples rounded to two decimal places, and the reported jitter
equals the mean of the absolute differences between consecutive finite
samples rounded to two decimal places; whenever one or zero finite samples
remain the jitter is reported as 0, and both ping and jitter are 0 when no
finite sample exists. -/
theorem c1_ping_jitter_rounded (samples : List (Option ℚ))
    (_hlen : samples.length = PING_COUNT) :
    (samples.filterMap id ≠ [] →
      ∃ m, m ∈ samples.filterMap id ∧ (∀ x ∈ samples.filterMap id, m ≤ x) ∧
        (pingStats samples).1 = round2 m) ∧
    (1 < (samples.filterMap id).length →
      (pingStats samples).2 =
        round2 ((((samples.filterMap id).zip (samples.filterMap id).tail).map
            fun p => |p.1 - p.2|).sum /
          (((samples.filterMap id).length - 1 : ℕ) : ℚ))) ∧
    ((samples.filterMap id).length ≤ 1 → (pingStats samples).2 = 0) ∧
    (samples.filterMap id = [] → pingStats samples = (0, 0)) := by
  refine ⟨?_, ?_, ?_, ?_⟩
  · intro hne
    obtain ⟨a, t, h⟩ : ∃ a t, samples.filterMap id = a :: t := by
      cases hh : samples.filterMap id with
      | nil => exact absurd hh hne
      | cons a t => exact ⟨a, t, rfl⟩
    refine ⟨listMin (samples.filterMap id), ?_, ?_, ?_⟩
    · rw [h]
      simpa [listMin] using foldl_min_mem t a
    · intro x hx
      rw [h] at hx ⊢
      rcases List.mem_cons.mp hx with h1 | h1
      · subst h1
        simpa [listMin] using (foldl_min_le t x).1
      · simpa [listMin] using (foldl_min_le t a).2 x h1
    · simp only [pingStats, h, List.isEmpty_cons, if_false, Bool.false_eq_true]
  · intro hlong
    obtain ⟨a, t, h⟩ : ∃ a t, samples.filterMap id = a :: t := by
      cases hh : samples.filterMap id with
      | nil => rw [hh] at hlong; simp at hlong
      | cons a t => exact ⟨a, t, rfl⟩
    rw [h] at hlong ⊢
    rw [← absDiffSum_eq_zip]
    simp only [pingStats, h, List.isEmpty_cons, Bool.false_eq_true, if_false, if_pos hlong]
  · intro hshort
    by_cases hpr : (samples.filterMap id).isEmpty
    · simp [pingStats, hpr]
    · have hlong : ¬ 1 < (samples.filterMap id).length := by omega
      simp [pingStats, hpr, hlong]
  · intro hnil
    simp [pingStats, hnil]

/-- C1 counterexample: with ten samples of which exactly one is finite with
value `1/1000` ms, the code reports a ping of `0` (the rounded minimum),
not the minimum `1/1000` itself as the claim states. -/
theorem c1_counterexample :
    ([some ((1 : ℚ)/1000), none, none, none, none, none, none, none, none,
        none].filterMap id ≠ []) ∧
    (pingStats [some ((1 : ℚ)/1000), none, none, none, none, none, none, none,
        none, none]).1 ≠
      listMin ([some ((1 : ℚ)/1000), none, none, none, none, none, none, none,
        none, none].filterMap id) := by
  constructor
  · decide
  · show round2 ((1 : ℚ)/1000) ≠ (1 : ℚ)/1000
    norm_num [round2, roundHalfEven]

/-- C1 witness: a concrete run of ten samples, seven finite, exercising the
amended claim. -/
theorem c1_witness :
    ∃ m, m ∈ ([some (3 : ℚ), some 5, some 4, none, some 6, some 3, none,
        some 7, some 5, some 4].filterMap id) ∧
      (∀ x ∈ ([some (3 : ℚ), some 5, some 4, none, some 6, some 3, none,
        some 7, some 5, some 4].filterMap id), m ≤ x) ∧
      (pingStats [some (3 : ℚ), some 5, some 4, none, some 6, some 3, none,
        some 7, some 5, some 4]).1 = round2 m :=
  (c1_ping_jitter_rounded
    [some (3 : ℚ), some 5, some 4, none, some 6, some 3, none, some 7, some 5, some 4]
    (by decide)).1 (by decide)

/-- C2: for each throughput phase the reported speed equals
`(total bytes × 8) / elapsed / 1,000,000` whenever the byte total is
positive, is exactly 0 when no byte was transferred, and is always
nonnegative; the `elapsed > 0` guard in the source prevents a division by
zero. -/
theorem c2_speed (totalBytes : ℕ) (elapsed : ℚ) (h : 0 < elapsed) :
    (0 < totalBytes →
      computeSpeed totalBytes elapsed = ((totalBytes : ℚ) * 8) / elapsed / 1000000) ∧
    (totalBytes = 0 → computeSpeed totalBytes elapsed = 0) ∧
    0 ≤ computeSpeed totalBytes elapsed := by
  refine ⟨?_, ?_, ?_⟩
  · intro hb
    simp [computeSpeed, hb, h]
  · intro hb
    simp [computeSpeed, hb]
  · unfold computeSpeed
    split
    · next hcond =>
      have h8 : (0 : ℚ) ≤ (totalBytes : ℚ) * 8 := by positivity
      exact div_nonneg (div_nonneg h8 (le_of_lt hcond.2)) (by norm_num)
    · exact le_refl 0

/-- C2 witness: one megabyte over fifteen seconds. -/
theorem c2_speed_witness :
    computeSpeed 1000000 15 = ((1000000 : ℚ) * 8) / 15 / 1000000 ∧
    computeSpeed 0 15 = 0 ∧ 0 ≤ computeSpeed 1000000 15 :=
  ⟨(c2_speed 1000000 15 (by norm_num)).1 (by norm_num),
   (c2_speed 0 15 (by norm_num)).2.1 rfl,
   (c2_speed 1000000 15 (by norm_num)).2.2⟩

/-- C6 (amended): the download phase starts `min(3, MAX_CONCURRENT_DOWNLOADS)
= 3` worker streams (its semaphore would admit up to 6 concurrent requests
but only 3 workers are launched) and the upload phase starts
`min(3, MAX_CONCURRENT_UPLOADS) = 3`; each launch after the first is
staggered by a 200 ms sleep; the phase duration is 15 s, so a 15-second
download phase runs with 3 concurrent workers. -/
theorem c6_stream_pool :
    downloadConcurrentRequests = 3 ∧ uploadConcurrentRequests = 3 ∧
    MAX_CONCURRENT_DOWNLOADS = 6 ∧ MAX_CONCURRENT_UPLOADS = 3 ∧
    STREAM_START_DELAY = 1/5 ∧
    startSleeps downloadConcurrentRequests = [1/5, 1/5] ∧
    startSleeps uploadConcurrentRequests = [1/5, 1/5] ∧
    SPEED_TEST_DURATION = 15 :=
  ⟨rfl, rfl, rfl, rfl, rfl, rfl, rfl, rfl⟩

/-- C6 counterexample: the download phase launches 3 worker streams, not the
6 the claim states. -/
theorem c6_counterexample :
    downloadConcurrentRequests = 3 ∧ downloadConcurrentRequests ≠ 6 := by
  decide

/-- C7 (amended): during the download phase, while the backend flavor is
unknown every request uses the moderate chunk-count parameter
`DOWNLOAD_CHUNK_PARAM = 20`; the first completed chunk whose response exceeds
`RUST_BACKEND_THRESHOLD = 5,000,000` bytes sets the flavor to modern (rust),
keeping that parameter; if the flavor is still undetermined once more than
`PHP_BACKEND_THRESHOLD = 2` chunks have completed — that is, at the third
completed small chunk — it is set to legacy (php) and subsequent requests
use the legacy chunk-count parameter `DEFAULT_CHUNKS = 100`; once set, the
flavor is never re-evaluated. -/
theorem c7_flavor_detection (s : DetectState) (b : ℕ) :
    (s.detected = none → chunkParam s = DOWNLOAD_CHUNK_PARAM) ∧
    (s.detected = none → RUST_BACKEND_THRESHOLD < b →
      (detectStep s b).detected = some .rust ∧
      chunkParam (detectStep s b) = DOWNLOAD_CHUNK_PARAM) ∧
    (s.detected = none → 0 < b → b ≤ RUST_BACKEND_THRESHOLD →
      PHP_BACKEND_THRESHOLD < s.downloadsCompleted + 1 →
      (detectStep s b).detected = some .php ∧
      chunkParam (detectStep s b) = DEFAULT_CHUNKS) ∧
    (s.detected = none → 0 < b → b ≤ RUST_BACKEND_THRESHOLD →
      s.downloadsCompleted + 1 ≤ PHP_BACKEND_THRESHOLD →
      (detectStep s b).detected = none) ∧
    (∀ t, s.detected = some t → (detectStep s b).detected = some t) ∧
    RUST_BACKEND_THRESHOLD = 5000000 ∧ PHP_BACKEND_THRESHOLD = 2 ∧
    DOWNLOAD_CHUNK_PARAM = 20 ∧ DEFAULT_CHUNKS = 100 := by
  obtain ⟨d, n⟩ := s
  refine ⟨?_, ?_, ?_, ?_, ?_, rfl, rfl, rfl, rfl⟩
  · intro hd
    simp only at hd
    subst hd
    rfl
  · intro hd hb
    simp only at hd
    subst hd
    have hb0 : 0 < b := by
      have : (0 : ℕ) < RUST_BACKEND_THRESHOLD := by norm_num [RUST_BACKEND_THRESHOLD]
      omega
    simp [detectStep, hb0, hb, chunkParam]
  · intro hd hb0 hb hn
    simp only at hd
    subst hd
    have hb2 : ¬ RUST_BACKEND_THRESHOLD < b := not_lt.mpr hb
    simp only at hn
    simp [detectStep, hb0, hb2, hn, chunkParam]
  · intro hd hb0 hb hn
    simp only at hd
    subst hd
    have hb2 : ¬ RUST_BACKEND_THRESHOLD < b := not_lt.mpr hb
    have hn2 : ¬ PHP_BACKEND_THRESHOLD < n + 1 := by simp only at hn; omega
    simp [detectStep, hb0, hb2, hn2]
  · intro t ht
    simp only at ht
    subst ht
    by_cases hb0 : 0 < b <;> simp [detectStep, hb0]

/-- C7 counterexample: after exactly two completed small chunks the flavor
is still undetermined — it is not yet set to legacy as the claim, read
literally, states. -/
theorem c7_counterexample :
    detectRun [1000, 1000] = ⟨none, 2⟩ ∧
    (detectRun [1000, 1000]).detected ≠ some BackendType.php := by
  decide

/-- C7 witness: a large first chunk flips the flavor to rust; three small
chunks flip it to php; the moderate parameter is used while unknown. -/
theorem c7_witness :
    (detectStep initDetectState 6000000).detected = some BackendType.rust ∧
    chunkParam initDetectState = 20 ∧
    (detectStep ⟨none, 2⟩ 1000).detected = some BackendType.php := by
  refine ⟨?_, ?_, ?_⟩
  · exact ((c7_flavor_detection initDetectState 6000000).2.1 rfl (by norm_num [RUST_BACKEND_THRESHOLD])).1
  · exact (c7_flavor_detection initDetectState 0).1 rfl
  · exact ((c7_flavor_detection ⟨none, 2⟩ 1000).2.2.1 rfl (by norm_num)
      (by norm_num [RUST_BACKEND_THRESHOLD]) (by norm_num [PHP_BACKEND_THRESHOLD])).1

/-- Helper: the retry loop either leaves the lifetime counters, the stored
data, and the possibility of an `ok` result untouched, or it went through the
success path. -/
theorem runLoop_counters (o : ℕ → AttemptOutcome) (s : CoordState) :
    ∀ fuel attempt lastErr,
      ((runLoop o s attempt fuel lastErr).state.lifetimeDownload = s.lifetimeDownload ∧
       (runLoop o s attempt fuel lastErr).state.lifetimeUpload = s.lifetimeUpload ∧
       (runLoop o s attempt fuel lastErr).state.data = s.data ∧
       ∀ d, (runLoop o s attempt fuel lastErr).result ≠ .ok d) ∨
      (∃ r, (runLoop o s attempt fuel lastErr).state = applySuccess s r ∧
        (runLoop o s attempt fuel lastErr).result = .ok r) := by
  intro fuel
  induction fuel with
  | zero =>
    intro attempt lastErr
    left
    refine ⟨rfl, rfl, rfl, ?_⟩
    intro d
    cases lastErr with
    | none => simp [runLoop, aggregateErr]
    | some e => cases e <;> simp [runLoop, aggregateErr]
  | succ fuel ih =>
    intro attempt lastErr
    cases ho : o attempt with
    | success r =>
      right
      exact ⟨r, by simp [runLoop, ho], by simp [runLoop, ho]⟩
    | fatal e =>
      left
      refine ⟨by simp [runLoop, ho], by simp [runLoop, ho], by simp [runLoop, ho], ?_⟩
      intro d
      cases e <;> simp [runLoop, ho, fatalResult]
    | retryable e =>
      have h := ih (attempt + 1) (some e)
      simpa only [runLoop, ho] using h

/-- Helper: with at least one attempt of fuel the retry loop performs at
least one attempt. -/
theorem runLoop_attempts_pos (o : ℕ → AttemptOutcome) (s : CoordState) :
    ∀ fuel attempt lastErr, 0 < fuel →
      0 < (runLoop o s attempt fuel lastErr).attemptsUsed := by
  intro fuel attempt lastErr hf
  cases fuel with
  | zero => omega
  | succ fuel =>
    cases ho : o attempt with
    | success r => simp [runLoop, ho]
    | fatal e => simp [runLoop, ho]
    | retryable e => simp [runLoop, ho]

/-- Helper: the consecutive-failure counter after the retry loop is the old
value, the old value plus one, or zero. -/
theorem runLoop_failures (o : ℕ → AttemptOutcome) (s : CoordState) :
    ∀ fuel attempt lastErr,
      (runLoop o s attempt fuel lastErr).state.consecutiveFailures = s.consecutiveFailures ∨
      (runLoop o s attempt fuel lastErr).state.consecutiveFailures = s.consecutiveFailures + 1 ∨
      (runLoop o s attempt fuel lastErr).state.consecutiveFailures = 0 := by
  intro fuel
  induction fuel with
  | zero =>
    intro attempt lastErr
    right; left
    rfl
  | succ fuel ih =>
    intro attempt lastErr
    cases ho : o attempt with
    | success r =>
      right; right
      simp [runLoop, ho, applySuccess]
    | fatal e =>
      left
      simp [runLoop, ho]
    | retryable e =>
      have h := ih (attempt + 1) (some e)
      simpa only [runLoop, ho] using h

/-- Helper: a non-retryable error aborts with the state fully unchanged. -/
theorem runLoop_fatal_state (o : ℕ → AttemptOutcome) (s : CoordState) :
    ∀ fuel attempt lastErr m,
      ((runLoop o s attempt fuel lastErr).result = .updateFailed (.testError m) ∨
       (runLoop o s attempt fuel lastErr).result = .updateFailed (.dataProcError m)) →
      (runLoop o s attempt fuel lastErr).state = s := by
  intro fuel
  induction fuel with
  | zero =>
    intro attempt lastErr m h
    exfalso
    cases lastErr with
    | none => simp [runLoop, aggregateErr] at h
    | some e => cases e <;> simp [runLoop, aggregateErr] at h
  | succ fuel ih =>
    intro attempt lastErr m h
    cases ho : o attempt with
    | success r =>
      exfalso
      simp [runLoop, ho] at h
    | fatal e =>
      simp [runLoop, ho]
    | retryable e =>
      simp only [runLoop, ho] at h ⊢
      exact ih (attempt + 1) (some e) m h

/-- Helper: the failure counter is incremented only when every attempt the
loop could make had a retryable outcome. -/
theorem runLoop_inc_retryable (o : ℕ → AttemptOutcome) (s : CoordState) :
    ∀ fuel attempt lastErr,
      (runLoop o s attempt fuel lastErr).state.consecutiveFailures = s.consecutiveFailures + 1 →
      ∀ i, attempt ≤ i → i < attempt + fuel → ∃ e, o i = .retryable e := by
  intro fuel
  induction fuel with
  | zero =>
    intro attempt lastErr _h i hi1 hi2
    omega
  | succ fuel ih =>
    intro attempt lastErr h i hi1 hi2
    cases ho : o attempt with
    | success r =>
      exfalso
      simp [runLoop, ho, applySuccess] at h
    | fatal e =>
      exfalso
      simp [runLoop, ho] at h
    | retryable e =>
      rcases Nat.eq_or_lt_of_le hi1 with heq | hlt
      · exact ⟨e, heq ▸ ho⟩
      · simp only [runLoop, ho] at h
        exact ih (attempt + 1) (some e) h i hlt (by omega)

/-- Helper: an `ok` result of the retry loop resets the failure counter. -/
theorem runLoop_ok_failures (o : ℕ → AttemptOutcome) (s : CoordState)
    (fuel attempt : ℕ) (lastErr : Option RetryErr) (d : TestData)
    (h : (runLoop o s attempt fuel lastErr).result = .ok d) :
    (runLoop o s attempt fuel lastErr).state.consecutiveFailures = 0 := by
  rcases runLoop_counters o s fuel attempt lastErr with ⟨_, _, _, hno⟩ | ⟨r, hs, _⟩
  · exact absurd h (hno d)
  · rw [hs]
    rfl

/-- C3: the lifetime download and upload counters are monotonically
non-decreasing across every coordinator operation, never exceed
`MAX_LIFETIME_GB = 1,000,000` GB, and change only when a test attempt has
produced and accepted a result: an operation that surfaces `UpdateFailed`
(a failed attempt), and an operation that made no attempt at all (a
lock-wait timeout or a circuit-open short-circuit) leave them — indeed the
whole state — unchanged. -/
theorem c3_lifetime_counters (s : CoordState) (lock : LockOutcome)
    (o : ℕ → AttemptOutcome)
    (hdl : s.lifetimeDownload ≤ MAX_LIFETIME_GB)
    (hul : s.lifetimeUpload ≤ MAX_LIFETIME_GB) :
    s.lifetimeDownload ≤ (updateData s lock o).state.lifetimeDownload ∧
    s.lifetimeUpload ≤ (updateData s lock o).state.lifetimeUpload ∧
    (updateData s lock o).state.lifetimeDownload ≤ MAX_LIFETIME_GB ∧
    (updateData s lock o).state.lifetimeUpload ≤ MAX_LIFETIME_GB ∧
    (∀ e, (updateData s lock o).result = .updateFailed e →
      (updateData s lock o).state.lifetimeDownload = s.lifetimeDownload ∧
      (updateData s lock o).state.lifetimeUpload = s.lifetimeUpload) ∧
    ((updateData s lock o).attemptsUsed = 0 → (updateData s lock o).state = s) ∧
    MAX_LIFETIME_GB = 1000000 := by
  have hid : ∀ res : RunResult, updateData s lock o = ⟨res, s, [], 0⟩ →
      s.lifetimeDownload ≤ (updateData s lock o).state.lifetimeDownload ∧
      s.lifetimeUpload ≤ (updateData s lock o).state.lifetimeUpload ∧
      (updateData s lock o).state.lifetimeDownload ≤ MAX_LIFETIME_GB ∧
      (updateData s lock o).state.lifetimeUpload ≤ MAX_LIFETIME_GB ∧
      (∀ e, (updateData s lock o).result = .updateFailed e →
        (updateData s lock o).state.lifetimeDownload = s.lifetimeDownload ∧
        (updateData s lock o).state.lifetimeUpload = s.lifetimeUpload) ∧
      ((updateData s lock o).attemptsUsed = 0 → (updateData s lock o).state = s) ∧
      MAX_LIFETIME_GB = 1000000 := by
    intro res hu
    rw [hu]
    exact ⟨le_refl _, le_refl _, hdl, hul, fun e _ => ⟨rfl, rfl⟩, fun _ => rfl, rfl⟩
  by_cases hc : CIRCUIT_BREAKER_OPEN_THRESHOLD ≤ s.consecutiveFailures
  · cases hd : s.data with
    | none => exact hid (.updateFailed .circuitOpen) (by simp [updateData, if_pos hc, hd])
    | some d => exact hid (.ok d) (by simp [updateData, if_pos hc, hd])
  · have hrun : ∀ hrl : updateData s lock o = runLoop o s 0 MAX_RETRIES none,
        s.lifetimeDownload ≤ (updateData s lock o).state.lifetimeDownload ∧
        s.lifetimeUpload ≤ (updateData s lock o).state.lifetimeUpload ∧
        (updateData s lock o).state.lifetimeDownload ≤ MAX_LIFETIME_GB ∧
        (updateData s lock o).state.lifetimeUpload ≤ MAX_LIFETIME_GB ∧
        (∀ e, (updateData s lock o).result = .updateFailed e →
          (updateData s lock o).state.lifetimeDownload = s.lifetimeDownload ∧
          (updateData s lock o).state.lifetimeUpload = s.lifetimeUpload) ∧
        ((updateData s lock o).attemptsUsed = 0 → (updateData s lock o).state = s) ∧
        MAX_LIFETIME_GB = 1000000 := by
      intro hrl
      rw [hrl]
      rcases runLoop_counters o s MAX_RETRIES 0 none with
        ⟨hd1, hd2, _hd3, hno⟩ | ⟨r, hs, hr⟩
      · refine ⟨le_of_eq hd1.symm, le_of_eq hd2.symm, hd1 ▸ hdl, hd2 ▸ hul,
          fun e _ => ⟨hd1, hd2⟩, ?_, rfl⟩
        intro h0
        have := runLoop_attempts_pos o s MAX_RETRIES 0 none (by norm_num [MAX_RETRIES])
        omega
      · have hb : (0 : ℚ) ≤ (r.bytesReceived : ℚ) / 1000000000 := by positivity
        have hb2 : (0 : ℚ) ≤ (r.bytesSent : ℚ) / 1000000000 := by positivity
        refine ⟨?_, ?_, ?_, ?_, ?_, ?_, rfl⟩
        · rw [hs]
          exact le_min (by linarith) hdl
        · rw [hs]
          exact le_min (by linarith) hul
        · rw [hs]
          exact min_le_right _ _
        · rw [hs]
          exact min_le_right _ _
        · intro e he
          rw [hr] at he
          exact absurd he (by simp)
        · intro h0
          have := runLoop_attempts_pos o s MAX_RETRIES 0 none (by norm_num [MAX_RETRIES])
          omega
    cases lock with
    | waitTimeout =>
      cases hd : s.data with
      | none => exact hid (.updateFailed .lockTimeout) (by simp [updateData, if_neg hc, hd])
      | some d => exact hid (.ok d) (by simp [updateData, if_neg hc, hd])
    | free => exact hrun (by simp [updateData, if_neg hc])
    | acquiredAfterWait => exact hrun (by simp [updateData, if_neg hc])

/-- C3 witness: from a fresh state with zero counters, a run whose first
attempt succeeds with 2 GB received and 1 GB sent keeps the counters within
the cap, and a run that exhausts its retries leaves them unchanged. -/
theorem c3_lifetime_counters_witness :
    (0 : ℚ) ≤ (updateData ⟨0, 0, 0, none⟩ .free
        (fun _ => .success ⟨100, 50, 10, 2, 1000000000, 2000000000⟩)).state.lifetimeDownload ∧
    (updateData ⟨0, 0, 0, none⟩ .free
        (fun _ => .success ⟨100, 50, 10, 2, 1000000000, 2000000000⟩)).state.lifetimeDownload ≤
      MAX_LIFETIME_GB ∧
    ((updateData ⟨0, 0, 0, none⟩ .free
        (fun _ => .retryable .timeout)).attemptsUsed = 0 →
      (updateData ⟨0, 0, 0, none⟩ .free (fun _ => .retryable .timeout)).state = ⟨0, 0, 0, none⟩) :=
  ⟨(c3_lifetime_counters ⟨0, 0, 0, none⟩ .free
      (fun _ => .success ⟨100, 50, 10, 2, 1000000000, 2000000000⟩)
      (by norm_num [MAX_LIFETIME_GB]) (by norm_num [MAX_LIFETIME_GB])).1,
   (c3_lifetime_counters ⟨0, 0, 0, none⟩ .free
      (fun _ => .success ⟨100, 50, 10, 2, 1000000000, 2000000000⟩)
      (by norm_num [MAX_LIFETIME_GB]) (by norm_num [MAX_LIFETIME_GB])).2.2.1,
   (c3_lifetime_counters ⟨0, 0, 0, none⟩ .free (fun _ => .retryable .timeout)
      (by norm_num [MAX_LIFETIME_GB]) (by norm_num [MAX_LIFETIME_GB])).2.2.2.2.2.1⟩

/-- C4: when the consecutive-failure counter has reached
`CIRCUIT_BREAKER_OPEN_THRESHOLD = 10`, or the wait for the global mutex
times out (after `GLOBAL_TEST_LOCK_TIMEOUT = 300` seconds), the coordinator
makes zero measurement attempts, performs no backoff sleeps, leaves the
state unchanged, and returns the last known-good result if one exists —
otherwise it raises `UpdateFailed`, with the distinct service-unavailable
signal in the circuit-open case. -/
theorem c4_circuit_and_lock (s : CoordState) (lock : LockOutcome)
    (o : ℕ → AttemptOutcome) :
    (CIRCUIT_BREAKER_OPEN_THRESHOLD ≤ s.consecutiveFailures →
      updateData s lock o =
        { result := match s.data with
            | some d => RunResult.ok d
            | none => RunResult.updateFailed UpdateErr.circuitOpen
          state := s
          sleeps := []
          attemptsUsed := 0 }) ∧
    (s.consecutiveFailures < CIRCUIT_BREAKER_OPEN_THRESHOLD →
      lock = LockOutcome.waitTimeout →
      updateData s lock o =
        { result := match s.data with
            | some d => RunResult.ok d
            | none => RunResult.updateFailed UpdateErr.lockTimeout
          state := s
          sleeps := []
          attemptsUsed := 0 }) ∧
    CIRCUIT_BREAKER_OPEN_THRESHOLD = 10 ∧ GLOBAL_TEST_LOCK_TIMEOUT = 300 := by
  refine ⟨?_, ?_, rfl, rfl⟩
  · intro hc
    cases hd : s.data with
    | none => simp [updateData, if_pos hc, hd]
    | some d => simp [updateData, if_pos hc, hd]
  · intro hc hl
    subst hl
    cases hd : s.data with
    | none => simp [updateData, if_neg (not_le.mpr hc), hd]
    | some d => simp [updateData, if_neg (not_le.mpr hc), hd]

/-- C4 witness: a circuit-open state without stored data raises the
service-unavailable signal with zero attempts; a lock-wait timeout with
stored data returns that data with zero attempts. -/
theorem c4_circuit_and_lock_witness :
    updateData ⟨10, 0, 0, none⟩ .free (fun _ => .retryable .timeout) =
      { result := RunResult.updateFailed UpdateErr.circuitOpen
        state := ⟨10, 0, 0, none⟩, sleeps := [], attemptsUsed := 0 } ∧
    updateData ⟨0, 0, 0, some ⟨100, 50, 10, 2, 5, 6⟩⟩ .waitTimeout
        (fun _ => .retryable .timeout) =
      { result := RunResult.ok ⟨100, 50, 10, 2, 5, 6⟩
        state := ⟨0, 0, 0, some ⟨100, 50, 10, 2, 5, 6⟩⟩, sleeps := [], attemptsUsed := 0 } :=
  ⟨(c4_circuit_and_lock ⟨10, 0, 0, none⟩ .free (fun _ => .retryable .timeout)).1
      (by norm_num [CIRCUIT_BREAKER_OPEN_THRESHOLD]),
   (c4_circuit_and_lock ⟨0, 0, 0, some ⟨100, 50, 10, 2, 5, 6⟩⟩ .waitTimeout
      (fun _ => .retryable .timeout)).2.1
      (by norm_num [CIRCUIT_BREAKER_OPEN_THRESHOLD]) rfl⟩

/-- C5: when the circuit is closed and the lock is acquired, a run whose
`MAX_RETRIES = 3` attempts all fail with retryable errors sleeps
`RETRY_DELAY_BASE * 2 ** attempt` after each non-final attempt (5 s after
attempt 0, 10 s after attempt 1, no sleep after the last), surfaces one
aggregate `UpdateFailed` carrying the last error, and increments the
consecutive-failure counter by exactly 1. -/
theorem c5_retry_backoff (s : CoordState) (lock : LockOutcome)
    (o : ℕ → AttemptOutcome)
    (hc : s.consecutiveFailures < CIRCUIT_BREAKER_OPEN_THRESHOLD)
    (hl : lock ≠ LockOutcome.waitTimeout)
    (e0 e1 e2 : RetryErr)
    (h0 : o 0 = .retryable e0) (h1 : o 1 = .retryable e1)
    (h2 : o 2 = .retryable e2) :
    updateData s lock o =
      { result := aggregateErr (some e2)
        state := { s with consecutiveFailures := s.consecutiveFailures + 1 }
        sleeps := [RETRY_DELAY_BASE * 2 ^ 0, RETRY_DELAY_BASE * 2 ^ 1]
        attemptsUsed := 3 } ∧
    RETRY_DELAY_BASE * 2 ^ 0 = 5 ∧ RETRY_DELAY_BASE * 2 ^ 1 = 10 ∧
    (e2 = RetryErr.timeout →
      aggregateErr (some e2) = RunResult.updateFailed UpdateErr.timedOutRetries) ∧
    (∀ m, e2 = RetryErr.network m →
      aggregateErr (some e2) = RunResult.updateFailed (UpdateErr.networkRetries m)) ∧
    MAX_RETRIES = 3 := by
  refine ⟨?_, by norm_num [RETRY_DELAY_BASE], by norm_num [RETRY_DELAY_BASE],
    fun h => by rw [h]; rfl, fun m h => by rw [h]; rfl, rfl⟩
  have hrl : updateData s lock o = runLoop o s 0 MAX_RETRIES none := by
    cases lock with
    | waitTimeout => exact absurd rfl hl
    | free => simp [updateData, if_neg (not_le.mpr hc)]
    | acquiredAfterWait => simp [updateData, if_neg (not_le.mpr hc)]
  rw [hrl]
  show runLoop o s 0 (2 + 1) none = _
  rw [runLoop, h0]
  show ({ result := (runLoop o s 1 (1 + 1) (some e0)).result
          state := (runLoop o s 1 (1 + 1) (some e0)).state
          sleeps := (if 0 < 1 + 1 then [RETRY_DELAY_BASE * 2 ^ 0] else []) ++
            (runLoop o s 1 (1 + 1) (some e0)).sleeps
          attemptsUsed := (runLoop o s 1 (1 + 1) (some e0)).attemptsUsed + 1 } : RunOut) = _
  rw [runLoop, h1]
  show ({ result := (runLoop o s 2 (0 + 1) (some e1)).result
          state := (runLoop o s 2 (0 + 1) (some e1)).state
          sleeps := (if 0 < 1 + 1 then [RETRY_DELAY_BASE * 2 ^ 0] else []) ++
            ((if 0 < 0 + 1 then [RETRY_DELAY_BASE * 2 ^ 1] else []) ++
              (runLoop o s 2 (0 + 1) (some e1)).sleeps)
          attemptsUsed := ((runLoop o s 2 (0 + 1) (some e1)).attemptsUsed + 1) + 1 } : RunOut) = _
  rw [runLoop, h2]
  simp [runLoop]

/-- C5 witness: a concrete state and three timeouts produce the 5 s and 10 s
sleeps, a timed-out aggregate failure, and a counter of 1. -/
theorem c5_retry_backoff_witness :
    updateData ⟨0, 0, 0, none⟩ .free (fun _ => .retryable .timeout) =
      { result := RunResult.updateFailed UpdateErr.timedOutRetries
        state := ⟨1, 0, 0, none⟩
        sleeps := [5, 10]
        attemptsUsed := 3 } := by
  have h := (c5_retry_backoff ⟨0, 0, 0, none⟩ .free (fun _ => .retryable .timeout)
    (by norm_num [CIRCUIT_BREAKER_OPEN_THRESHOLD]) (by simp)
    .timeout .timeout .timeout rfl rfl rfl).1
  rw [h]
  norm_num [aggregateErr, RETRY_DELAY_BASE]

/-- C10: the consecutive-failure counter changes in exactly two ways — after
any coordinator update it is the old value, the old value plus one, or zero;
it is unchanged by a circuit-open short-circuit, a lock-wait timeout, and a
non-retryable (test or data-processing) error, which even leave the whole
state unchanged; an increment can only happen when the circuit was closed,
the lock was acquired, and all `MAX_RETRIES = 3` attempts had retryable
outcomes; an accepted successful attempt resets it to zero; and the manual
trigger lowers it to `CIRCUIT_BREAKER_OPEN_THRESHOLD - 1` exactly when it
was at or above the threshold, leaving it unchanged otherwise. -/
theorem c10_failure_counter (s : CoordState) (lock : LockOutcome)
    (o : ℕ → AttemptOutcome) :
    ((updateData s lock o).state.consecutiveFailures = s.consecutiveFailures ∨
     (updateData s lock o).state.consecutiveFailures = s.consecutiveFailures + 1 ∨
     (updateData s lock o).state.consecutiveFailures = 0) ∧
    (CIRCUIT_BREAKER_OPEN_THRESHOLD ≤ s.consecutiveFailures →
      (updateData s lock o).state = s) ∧
    (lock = LockOutcome.waitTimeout → (updateData s lock o).state = s) ∧
    (∀ m, (updateData s lock o).result = .updateFailed (.testError m) →
      (updateData s lock o).state = s) ∧
    (∀ m, (updateData s lock o).result = .updateFailed (.dataProcError m) →
      (updateData s lock o).state = s) ∧
    ((updateData s lock o).state.consecutiveFailures = s.consecutiveFailures + 1 →
      s.consecutiveFailures < CIRCUIT_BREAKER_OPEN_THRESHOLD ∧
      lock ≠ LockOutcome.waitTimeout ∧
      ∀ i < MAX_RETRIES, ∃ e, o i = .retryable e) ∧
    (∀ d, (updateData s lock o).result = .ok d → 0 < (updateData s lock o).attemptsUsed →
      (updateData s lock o).state.consecutiveFailures = 0) ∧
    (CIRCUIT_BREAKER_OPEN_THRESHOLD ≤ s.consecutiveFailures →
      (manualTriggerPre s).consecutiveFailures = CIRCUIT_BREAKER_OPEN_THRESHOLD - 1) ∧
    (s.consecutiveFailures < CIRCUIT_BREAKER_OPEN_THRESHOLD →
      manualTriggerPre s = s) := by
  have hmanual1 : CIRCUIT_BREAKER_OPEN_THRESHOLD ≤ s.consecutiveFailures →
      (manualTriggerPre s).consecutiveFailures = CIRCUIT_BREAKER_OPEN_THRESHOLD - 1 := by
    intro h
    simp [manualTriggerPre, if_pos h]
  have hmanual2 : s.consecutiveFailures < CIRCUIT_BREAKER_OPEN_THRESHOLD →
      manualTriggerPre s = s := by
    intro h
    simp [manualTriggerPre, if_neg (not_le.mpr h)]
  have hshort : ∀ res : RunResult, updateData s lock o = ⟨res, s, [], 0⟩ →
      ((updateData s lock o).state.consecutiveFailures = s.consecutiveFailures ∨
       (updateData s lock o).state.consecutiveFailures = s.consecutiveFailures + 1 ∨
       (updateData s lock o).state.consecutiveFailures = 0) ∧
      (CIRCUIT_BREAKER_OPEN_THRESHOLD ≤ s.consecutiveFailures →
        (updateData s lock o).state = s) ∧
      (lock = LockOutcome.waitTimeout → (updateData s lock o).state = s) ∧
      (∀ m, (updateData s lock o).result = .updateFailed (.testError m) →
        (updateData s lock o).state = s) ∧
      (∀ m, (updateData s lock o).result = .updateFailed (.dataProcError m) →
        (updateData s lock o).state = s) ∧
      ((updateData s lock o).state.consecutiveFailures = s.consecutiveFailures + 1 →
        s.consecutiveFailures < CIRCUIT_BREAKER_OPEN_THRESHOLD ∧
        lock ≠ LockOutcome.waitTimeout ∧
        ∀ i < MAX_RETRIES, ∃ e, o i = .retryable e) ∧
      (∀ d, (updateData s lock o).result = .ok d → 0 < (updateData s lock o).attemptsUsed →
        (updateData s lock o).state.consecutiveFailures = 0) := by
    intro res hu
    rw [hu]
    refine ⟨Or.inl rfl, fun _ => rfl, fun _ => rfl, fun m _ => rfl, fun m _ => rfl, ?_, ?_⟩
    · intro habs
      exfalso
      have : s.consecutiveFailures = s.consecutiveFailures + 1 := habs
      omega
    · intro d _ h0
      exact absurd h0 (by norm_num)
  by_cases hc : CIRCUIT_BREAKER_OPEN_THRESHOLD ≤ s.consecutiveFailures
  · refine ?_
    cases hd : s.data with
    | none =>
      have h := hshort (.updateFailed .circuitOpen) (by simp [updateData, if_pos hc, hd])
      exact ⟨h.1, h.2.1, h.2.2.1, h.2.2.2.1, h.2.2.2.2.1, h.2.2.2.2.2.1,
        h.2.2.2.2.2.2, hmanual1, hmanual2⟩
    | some d =>
      have h := hshort (.ok d) (by simp [updateData, if_pos hc, hd])
      exact ⟨h.1, h.2.1, h.2.2.1, h.2.2.2.1, h.2.2.2.2.1, h.2.2.2.2.2.1,
        h.2.2.2.2.2.2, hmanual1, hmanual2⟩
  · cases lock with
    | waitTimeout =>
      cases hd : s.data with
      | none =>
        have h := hshort (.updateFailed .lockTimeout) (by simp [updateData, if_neg hc, hd])
        exact ⟨h.1, h.2.1, h.2.2.1, h.2.2.2.1, h.2.2.2.2.1, h.2.2.2.2.2.1,
          h.2.2.2.2.2.2, hmanual1, hmanual2⟩
      | some d =>
        have h := hshort (.ok d) (by simp [updateData, if_neg hc, hd])
        exact ⟨h.1, h.2.1, h.2.2.1, h.2.2.2.1, h.2.2.2.2.1, h.2.2.2.2.2.1,
          h.2.2.2.2.2.2, hmanual1, hmanual2⟩
    | free =>
      have hrl : updateData s LockOutcome.free o = runLoop o s 0 MAX_RETRIES none := by
        simp [updateData, if_neg hc]
      rw [hrl]
      refine ⟨runLoop_failures o s MAX_RETRIES 0 none, ?_, ?_, ?_, ?_, ?_, ?_,
        hmanual1, hmanual2⟩
      · exact fun h => absurd h hc
      · intro h
        exact absurd h (by simp)
      · intro m h
        exact runLoop_fatal_state o s MAX_RETRIES 0 none m (Or.inl h)
      · intro m h
        exact runLoop_fatal_state o s MAX_RETRIES 0 none m (Or.inr h)
      · intro hinc
        refine ⟨not_le.mp hc, by simp, ?_⟩
        intro i hi
        exact runLoop_inc_retryable o s MAX_RETRIES 0 none hinc i (Nat.zero_le i)
          (by simpa using hi)
      · intro d h _
        exact runLoop_ok_failures o s MAX_RETRIES 0 none d h
    | acquiredAfterWait =>
      have hrl : updateData s LockOutcome.acquiredAfterWait o =
          runLoop o s 0 MAX_RETRIES none := by
        simp [updateData, if_neg hc]
      rw [hrl]
      refine ⟨runLoop_failures o s MAX_RETRIES 0 none, ?_, ?_, ?_, ?_, ?_, ?_,
        hmanual1, hmanual2⟩
      · exact fun h => absurd h hc
      · intro h
        exact absurd h (by simp)
      · intro m h
        exact runLoop_fatal_state o s MAX_RETRIES 0 none m (Or.inl h)
      · intro m h
        exact runLoop_fatal_state o s MAX_RETRIES 0 none m (Or.inr h)
      · intro hinc
        refine ⟨not_le.mp hc, by simp, ?_⟩
        intro i hi
        exact runLoop_inc_retryable o s MAX_RETRIES 0 none hinc i (Nat.zero_le i)
          (by simpa using hi)
      · intro d h _
        exact runLoop_ok_failures o s MAX_RETRIES 0 none d h

/-- C10 witness: a retryable exhaustion increments the counter from 0 to 1;
a circuit-open short-circuit leaves a counter of 10 unchanged; the manual
trigger lowers 10 to 9. -/
theorem c10_failure_counter_witness :
    (updateData ⟨10, 0, 0, none⟩ .free
        (fun _ => .retryable .timeout)).state = ⟨10, 0, 0, none⟩ ∧
    (manualTriggerPre ⟨10, 0, 0, none⟩).consecutiveFailures = 9 ∧
    manualTriggerPre ⟨3, 0, 0, none⟩ = ⟨3, 0, 0, none⟩ :=
  ⟨(c10_failure_counter ⟨10, 0, 0, none⟩ .free (fun _ => .retryable .timeout)).2.1
      (by norm_num [CIRCUIT_BREAKER_OPEN_THRESHOLD]),
   (c10_failure_counter ⟨10, 0, 0, none⟩ .free (fun _ => .retryable .timeout)).2.2.2.2.2.2.2.1
      (by norm_num [CIRCUIT_BREAKER_OPEN_THRESHOLD]),
   (c10_failure_counter ⟨3, 0, 0, none⟩ .free (fun _ => .retryable .timeout)).2.2.2.2.2.2.2.2
      (by norm_num [CIRCUIT_BREAKER_OPEN_THRESHOLD])⟩

/-- Helper: `leadsWith p s` holds exactly when `s` extends `p`. -/
theorem leadsWith_iff : ∀ p s : List Char, leadsWith p s = true ↔ ∃ t, s = p ++ t := by
  intro p
  induction p with
  | nil =>
    intro s
    simp [leadsWith]
  | cons a p ih =>
    intro s
    cases s with
    | nil =>
      simp [leadsWith]
    | cons b s2 =>
      constructor
      · intro h
        by_cases hab : a = b
        · subst hab
          rw [leadsWith, if_pos rfl] at h
          obtain ⟨t, ht⟩ := (ih s2).mp h
          exact ⟨t, by rw [ht, List.cons_append]⟩
        · rw [leadsWith, if_neg hab] at h
          exact absurd h (by simp)
      · rintro ⟨t, ht⟩
        rw [List.cons_append] at ht
        obtain ⟨h1, h2⟩ := List.cons.inj ht
        subst h1
        rw [leadsWith, if_pos rfl]
        exact (ih s2).mpr ⟨t, h2⟩

/-- Helper: every URL returned by `ensureScheme` carries an `http://` or
`https://` scheme. -/
theorem ensureScheme_scheme (u : String) :
    strStartsWith (ensureScheme u) "http://" = true ∨
    strStartsWith (ensureScheme u) "https://" = true := by
  unfold ensureScheme
  by_cases h1 : strStartsWith u "//" = true
  · right
    rw [if_pos h1]
    unfold strStartsWith at h1 ⊢
    obtain ⟨t, ht⟩ := (leadsWith_iff _ _).mp h1
    apply (leadsWith_iff _ _).mpr
    refine ⟨t, ?_⟩
    rw [String.data_append, ht, ← List.append_assoc]
    rfl
  · rw [if_neg h1]
    by_cases h2 : (strStartsWith u "http://" || strStartsWith u "https://") = true
    · rw [if_neg (by simp [h2])]
      rcases Bool.or_eq_true_iff.mp h2 with h3 | h3
      · exact Or.inl h3
      · exact Or.inr h3
    · rw [if_pos (by simp at h2; simp [h2.1, h2.2])]
      right
      unfold strStartsWith
      apply (leadsWith_iff _ _).mpr
      exact ⟨u.data, by rw [String.data_append]⟩

/-- Helper: every member of `getServers f` is the built-in default or a
normalized entry produced by `parseEntry`. -/
theorem getServers_mem (f : FetchOutcome) (sv : Server) (h : sv ∈ getServers f) :
    sv ∈ DEFAULT_SERVERS ∨ ∃ idx j, parseEntry idx j = some sv := by
  cases f with
  | failure =>
    have hred : getServers .failure = DEFAULT_SERVERS := by simp [getServers]
    rw [hred] at h
    exact Or.inl h
  | response status body =>
    by_cases hst : status = HTTP_OK
    · subst hst
      have hred : getServers (.response HTTP_OK body) =
          if (List.insertionSort (fun a b => a.id ≤ b.id)
              (body.enum.filterMap fun p => parseEntry p.1 p.2)).isEmpty then
            DEFAULT_SERVERS
          else
            List.insertionSort (fun a b => a.id ≤ b.id)
              (body.enum.filterMap fun p => parseEntry p.1 p.2) := by
        simp [getServers]
      rw [hred] at h
      by_cases he :
          (List.insertionSort (fun a b => a.id ≤ b.id)
            (body.enum.filterMap fun p => parseEntry p.1 p.2)).isEmpty
      · rw [if_pos he] at h
        exact Or.inl h
      · rw [if_neg he] at h
        right
        have h2 := (List.mem_insertionSort (fun a b : Server => a.id ≤ b.id)).mp h
        obtain ⟨p, _hp, hpe⟩ := List.mem_filterMap.mp h2
        exact ⟨p.1, p.2, hpe⟩
    · have hred : getServers (.response status body) = DEFAULT_SERVERS := by
        simp [getServers, hst]
      rw [hred] at h
      exact Or.inl h

/-- Helper: `getServers` output is sorted by ascending id. -/
theorem getServers_sorted (f : FetchOutcome) :
    List.Sorted (fun a b => a.id ≤ b.id) (getServers f) := by
  have hdef : List.Sorted (fun a b : Server => a.id ≤ b.id) DEFAULT_SERVERS :=
    List.sorted_singleton _
  cases f with
  | failure =>
    have hred : getServers .failure = DEFAULT_SERVERS := by simp [getServers]
    rw [hred]
    exact hdef
  | response status body =>
    by_cases hst : status = HTTP_OK
    · subst hst
      have hred : getServers (.response HTTP_OK body) =
          if (List.insertionSort (fun a b => a.id ≤ b.id)
              (body.enum.filterMap fun p => parseEntry p.1 p.2)).isEmpty then
            DEFAULT_SERVERS
          else
            List.insertionSort (fun a b => a.id ≤ b.id)
              (body.enum.filterMap fun p => parseEntry p.1 p.2) := by
        simp [getServers]
      rw [hred]
      by_cases he :
          (List.insertionSort (fun a b => a.id ≤ b.id)
            (body.enum.filterMap fun p => parseEntry p.1 p.2)).isEmpty
      · rw [if_pos he]
        exact hdef
      · rw [if_neg he]
        exact List.sorted_insertionSort _ _
    · have hred : getServers (.response status body) = DEFAULT_SERVERS := by
        simp [getServers, hst]
      rw [hred]
      exact hdef

/-- C8: on any network, JSON-decode, or timeout failure the server directory
returns exactly the single built-in default descriptor; every returned entry
(on any outcome) has a URL carrying an `http://` or `https://` scheme; any
endpoint suffix missing from a fetched entry is defaulted to the legacy
`backend/*.php` convention; and the returned list is sorted by ascending id. -/
theorem c8_server_directory (f : FetchOutcome) :
    (f = .failure → getServers f = DEFAULT_SERVERS) ∧
    DEFAULT_SERVERS.length = 1 ∧
    (∀ sv ∈ getServers f,
      strStartsWith sv.server "http://" = true ∨
      strStartsWith sv.server "https://" = true) ∧
    (∀ idx e sv, parseEntry idx (.obj e) = some sv →
      (e.dlURL = none → sv.dlURL = "backend/garbage.php") ∧
      (e.ulURL = none → sv.ulURL = "backend/empty.php") ∧
      (e.pingURL = none → sv.pingURL = "backend/empty.php") ∧
      (e.getIpURL = none → sv.getIpURL = "backend/getIP.php")) ∧
    List.Sorted (fun a b => a.id ≤ b.id) (getServers f) := by
  refine ⟨?_, rfl, ?_, ?_, getServers_sorted f⟩
  · intro hf
    subst hf
    rfl
  · intro sv hsv
    rcases getServers_mem f sv hsv with hdef | ⟨idx, j, hj⟩
    · have : sv = ⟨1, "LibreSpeed Test Server", "https://librespeed.org/", "Global",
          "LibreSpeed", "backend/garbage.php", "backend/empty.php", "backend/empty.php",
          "backend/getIP.php"⟩ := by
        simpa [DEFAULT_SERVERS] using hdef
      subst this
      right
      rfl
    · cases j with
      | junk => simp [parseEntry] at hj
      | obj e =>
        have hsrv : sv.server = ensureScheme (rstripSlash (e.server.getD "")) := by
          simp [parseEntry] at hj
          rw [← hj]
        rw [hsrv]
        exact ensureScheme_scheme _
  · intro idx e sv hj
    simp only [parseEntry, Option.some.injEq] at hj
    subst hj
    refine ⟨?_, ?_, ?_, ?_⟩ <;> intro hnone <;> simp [hnone]

/-- C8 witness: a timed-out fetch yields exactly the default list; a
successful fetch with one entry missing its `dlURL` defaults it and keeps
the list sorted. -/
theorem c8_server_directory_witness :
    getServers .failure = DEFAULT_SERVERS ∧
    List.Sorted (fun a b => a.id ≤ b.id)
      (getServers (.response 200 [.obj ⟨some 2, some "B", some "b.example.com", none,
        none, none, none, none, none⟩,
        .obj ⟨some 1, some "A", some "//a.example.com", none, none,
          some "garbage.php", none, none, none⟩])) ∧
    (∀ sv, parseEntry 0 (.obj ⟨some 2, some "B", some "b.example.com", none, none,
        none, none, none, none⟩) = some sv → sv.dlURL = "backend/garbage.php") :=
  ⟨(c8_server_directory .failure).1 rfl,
   (c8_server_directory (.response 200 [.obj ⟨some 2, some "B", some "b.example.com",
      none, none, none, none, none, none⟩,
      .obj ⟨some 1, some "A", some "//a.example.com", none, none,
        some "garbage.php", none, none, none⟩])).2.2.2.2,
   fun sv h =>
     ((c8_server_directory .failure).2.2.2.1 0 ⟨some 2, some "B", some "b.example.com",
        none, none, none, none, none, none⟩ sv h).1 rfl⟩

/-- C9: for a custom server URL the protocol adapter probes the
extension-less ping endpoint first and the `.php`-suffixed one second, each
under `PING_TIMEOUT = 2` seconds, selecting the first that answers with
success; it defaults to the legacy (php) flavor without raising when neither
responds; and for `https://example.com/speedtest`, where only the `.php`
endpoint works, it builds the legacy endpoint paths of the
backend-sub-path variant. -/
theorem c9_custom_server (phpOk : Bool) (url : String) (hbp : Bool) :
    detectBackendType true phpOk = .rust ∧
    detectBackendType false true = .php ∧
    detectBackendType false false = .php ∧
    PING_TIMEOUT = 2 ∧
    probeOrder url hbp = [rustTestUrl url hbp, phpTestUrl url hbp] ∧
    strEndsWith (rustTestUrl url hbp) ".php" = false ∧
    strEndsWith (phpTestUrl url hbp) ".php" = true ∧
    hasBackendPath "https://example.com/speedtest" = true ∧
    createCustomServer "https://example.com/speedtest" false true =
      ⟨0, "Custom Server", "https://example.com/speedtest", "Custom", "User Defined",
       "garbage.php", "empty.php", "empty.php", "getIP.php"⟩ := by
  refine ⟨rfl, rfl, rfl, rfl, rfl, ?_, ?_, ?_, ?_⟩
  · cases hbp with
    | true =>
      show leadsWith ".php".data.reverse
        ((rstripSlash url ++ "/empty").data.reverse) = false
      rw [String.data_append, List.reverse_append]
      rfl
    | false =>
      show leadsWith ".php".data.reverse
        ((rstripSlash url ++ "/backend/empty").data.reverse) = false
      rw [String.data_append, List.reverse_append]
      rfl
  · cases hbp with
    | true =>
      show leadsWith ".php".data.reverse
        ((rstripSlash url ++ "/empty.php").data.reverse) = true
      rw [String.data_append, List.reverse_append]
      rfl
    | false =>
      show leadsWith ".php".data.reverse
        ((rstripSlash url ++ "/backend/empty.php").data.reverse) = true
      rw [String.data_append, List.reverse_append]
      rfl
  · rfl
  · rfl
